import Mathlib

/-
Shallow embedding of the zoe-tabs-backend service (src/main.py).

The program is a single-file FastAPI backend with:
  * `download_youtube_audio` — creates a fresh temporary directory
    (`tempfile.mkdtemp`), runs the external `yt-dlp` process once with a
    fixed argument list, a fixed output template `<tmp>/audio.%(ext)s`
    and a 30-second timeout (`subprocess.run(cmd, check=True, timeout=30)`),
    then scans the directory for the first file ending in `.wav`;
  * `fake_generate_tabs` — a constant stub returning fixed chords and a
    fixed 4-line tablature string;
  * the `POST /api/youtube-to-tabs` handler `youtube_to_tabs`, which calls
    the downloader inside try/except arms (TimeoutExpired,
    CalledProcessError, generic Exception) and then the tab generator
    inside its own try/except, always returning a `TabResponse`.

The external world (the fresh directory name returned by `mkdtemp`, the
module directory `os.path.dirname(__file__)`, the outcome of the spawned
`yt-dlp` process, and the directory listing observed afterwards) is
modelled by an explicit environment `DownloaderEnv` passed to each
function.  Exceptions are modelled with `Except`; the list of external
process invocations performed is returned alongside the result so that
"the downloader is invoked exactly once / never" is statable.
-/

namespace ZoeTabs

/-- Request body model (`YouTubeRequest` in main.py). -/
structure YouTubeRequest where
  youtube_url : String
deriving Repr, DecidableEq

/-- Response body model (`TabResponse` in main.py): `message` is Optional. -/
structure TabResponse where
  tab : String
  chords : List String
  message : Option String
deriving Repr, DecidableEq

/-- Outcome of `subprocess.run(cmd, timeout=30)` for the spawned process:
either the process completed with some exit code, or the time budget
expired. -/
inductive RunResult where
  | completed (exitCode : Int)
  | timedOut
deriving Repr, DecidableEq

/-- One recorded invocation of the external downloader process: the full
argument vector and the time budget passed to `subprocess.run`. -/
structure RunCall where
  cmd : List String
  timeoutSec : Nat
deriving Repr, DecidableEq

/-- Environment for one request: the directory of the source file (for the
cookie path), the fresh working directory produced by `tempfile.mkdtemp`,
what the spawned `yt-dlp` process does, and the files seen by
`os.listdir` on the working directory afterwards. -/
structure DownloaderEnv where
  srcDir : String
  tmpDir : String
  runResult : RunResult
  listing : List String
deriving Repr, DecidableEq

/-- The Python exceptions that `download_youtube_audio` can raise:
`subprocess.TimeoutExpired`, `subprocess.CalledProcessError` (carrying
the return code), and `RuntimeError` (carrying its message). -/
inductive PyError where
  | timeoutExpired
  | calledProcessError (returncode : Int)
  | runtimeError (msg : String)
deriving Repr, DecidableEq

/-- Embedding of Python `str.endswith` on the character level. -/
def endsWithStr (s suffix : String) : Bool :=
  suffix.data.isSuffixOf s.data

/-- The exact `yt-dlp` argument vector built in `download_youtube_audio`
(main.py lines 49–76), as a function of the cookie path, the output
template and the requested URL. -/
def ytDlpCmd (cookie_path out_tmpl youtube_url : String) : List String :=
  ["yt-dlp",
   "--cookies", cookie_path,
   "--extractor-args", "youtube:player_client=ios,player_skip=web",
   "--user-agent",
   "com.google.ios.youtube/19.45.3 (iPhone14,2; U; CPU iOS 17_5 like Mac OS X)",
   "--add-header", "X-YouTube-Client-Name:5",
   "--add-header", "X-YouTube-Client-Version:19.45.3",
   "--compat-options", "no-youtube-unavailable-videos",
   "--force-ipv4",
   "--no-check-certificate",
   "--no-overwrites",
   "--no-mtime",
   "-x",
   "--audio-format", "wav",
   "-o", out_tmpl,
   youtube_url]

/-- Message of the `RuntimeError` raised when the process exits 0 but no
`.wav` file is found (main.py line 86). -/
def noWavMsg : String := "yt-dlp completed but no WAV file was produced."

/-- Embedding of `download_youtube_audio` (main.py lines 38–86).
Returns the result (`.ok path`, or `.error e` for a raised exception)
together with the list of external process invocations performed.
`tempfile.mkdtemp` is modelled by the fresh directory `env.tmpDir`;
`subprocess.run(cmd, check=True, timeout=30)` raises `TimeoutExpired` on
budget expiry and `CalledProcessError` exactly when the exit code is
non-zero; the `for fname in os.listdir` loop returning the first `.wav`
match is `List.find?`. -/
def download_youtube_audio (youtube_url : String) (env : DownloaderEnv) :
    Except PyError String × List RunCall :=
  let out_tmpl := env.tmpDir ++ "/audio.%(ext)s"
  let cookie_path := env.srcDir ++ "/www.youtube.com_cookies.txt"
  let calls := [RunCall.mk (ytDlpCmd cookie_path out_tmpl youtube_url) 30]
  match env.runResult with
  | .timedOut => (.error .timeoutExpired, calls)
  | .completed c =>
    if c ≠ 0 then
      (.error (.calledProcessError c), calls)
    else
      match env.listing.find? (fun f => endsWithStr f ".wav") with
      | some fname => (.ok (env.tmpDir ++ "/" ++ fname), calls)
      | none => (.error (.runtimeError noWavMsg), calls)

/-- The fixed chord list of the stub (main.py line 98). -/
def demoChords : List String := ["C", "G", "Am", "F"]

/-- The fixed 4-line tablature string of the stub (main.py lines 99–104). -/
def demoTab : String :=
  "A|-----0-----------0-----------|\n" ++
  "E|---3---3-------3---3---------|\n" ++
  "C|-0-------0---2-------2-------|\n" ++
  "G|-----------------------------|\n"

/-- Embedding of `fake_generate_tabs` (main.py lines 93–105): ignores its
input and returns the fixed demo payload. -/
def fake_generate_tabs (audio_path : String) : List String × String :=
  (demoChords, demoTab)

/-- The timeout message of the handler (main.py line 133). -/
def timeoutMsg : String := "ERROR: yt-dlp timeout (>30s). Try a shorter video."

/-- The handler `youtube_to_tabs` (main.py lines 117–164), generalised
over the tab generator so the `except Exception` arm around step 2 is
representable (a generator that raises is `.error e` with `e = str` of
the exception).  Each `except` arm of the Python handler is one branch;
the generic `except Exception as e` arm renders `str(e)`, which for the
`RuntimeError` raised in `download_youtube_audio` is its message. -/
def youtube_to_tabs_with (gen : String → Except String (List String × String))
    (req : YouTubeRequest) (env : DownloaderEnv) : TabResponse × List RunCall :=
  let res := download_youtube_audio req.youtube_url env
  match res.1 with
  | .error .timeoutExpired =>
      (TabResponse.mk "" [] (some timeoutMsg), res.2)
  | .error (.calledProcessError c) =>
      (TabResponse.mk "" []
        (some ("ERROR: yt-dlp failed (exit " ++ toString c ++ ").")), res.2)
  | .error (.runtimeError m) =>
      (TabResponse.mk "" [] (some ("ERROR: " ++ m)), res.2)
  | .ok wav_path =>
    match gen wav_path with
    | .ok (chords, tab) => (TabResponse.mk tab chords (some "OK"), res.2)
    | .error e =>
        (TabResponse.mk "" [] (some ("ERROR (tab generator): " ++ e)), res.2)

/-- The actual handler: step 2 calls `fake_generate_tabs`, whose Python
body is pure constant construction and cannot raise, so its exception
embedding is `.ok` of its value. -/
def youtube_to_tabs (req : YouTubeRequest) (env : DownloaderEnv) :
    TabResponse × List RunCall :=
  youtube_to_tabs_with (fun p => .ok (fake_generate_tabs p)) req env

/-- A failure envelope: empty tab, empty chords, the given message. -/
def failEnvelope (m : String) : TabResponse := TabResponse.mk "" [] (some m)

/-- Substring containment, on the character level. -/
def containsStr (s sub : String) : Prop :=
  ∃ a t : List Char, s.data = a ++ sub.data ++ t

/-- String prefix, on the character level. -/
def startsWithP (s p : String) : Prop :=
  ∃ t : List Char, s.data = p.data ++ t

/-- Boolean substring containment (decidable, for concrete evaluation). -/
def containsB (s sub : String) : Bool :=
  s.data.tails.any (fun t => sub.data.isPrefixOf t)

/-- Boolean string prefix (decidable, for concrete evaluation). -/
def startsWithB (s p : String) : Bool :=
  p.data.isPrefixOf s.data

/-- The claim C8 tag discipline as literally stated by the spec: the
message begins with one of the stage names `downloader`, `converter`,
`transcriber`. -/
def specStageTagged (m : String) : Bool :=
  startsWithB m "downloader" || startsWithB m "converter" ||
    startsWithB m "transcriber"

/-- Result assembly as a pure function of the downloader outcome: the
body of the handler after step 1, one branch per `except` arm. -/
def assembleWith (gen : String → Except String (List String × String)) :
    Except PyError String → TabResponse
  | .error .timeoutExpired => failEnvelope timeoutMsg
  | .error (.calledProcessError c) =>
      failEnvelope ("ERROR: yt-dlp failed (exit " ++ toString c ++ ").")
  | .error (.runtimeError m) => failEnvelope ("ERROR: " ++ m)
  | .ok wav_path =>
    match gen wav_path with
    | .ok (chords, tab) => TabResponse.mk tab chords (some "OK")
    | .error e => failEnvelope ("ERROR (tab generator): " ++ e)

/-- The tab generator of the actual handler: `fake_generate_tabs`, which
cannot raise. -/
def genOk : String → Except String (List String × String) :=
  fun p => .ok (fake_generate_tabs p)

-- Fixed environments for concrete evaluations.

def reqDemo : YouTubeRequest := YouTubeRequest.mk "https://youtu.be/demo"

def envOk : DownloaderEnv :=
  DownloaderEnv.mk "/app" "/tmp/work" (.completed 0) ["audio.wav"]

def envExit1 : DownloaderEnv :=
  DownloaderEnv.mk "/app" "/tmp/work" (.completed 1) []

def envTimedOut : DownloaderEnv :=
  DownloaderEnv.mk "/app" "/tmp/work" .timedOut []

def envNoWav : DownloaderEnv :=
  DownloaderEnv.mk "/app" "/tmp/work" (.completed 0) ["audio.mp4"]

def envTimedOutAlt : DownloaderEnv :=
  DownloaderEnv.mk "/opt" "/tmp/other" .timedOut ["x.wav"]

-- Helper lemmas.

theorem data_append (a b : String) : (a ++ b).data = a.data ++ b.data := rfl

theorem download_calls (url : String) (env : DownloaderEnv) :
    (download_youtube_audio url env).2 =
      [RunCall.mk (ytDlpCmd (env.srcDir ++ "/www.youtube.com_cookies.txt")
        (env.tmpDir ++ "/audio.%(ext)s") url) 30] := by
  unfold download_youtube_audio
  cases env.runResult with
  | timedOut => rfl
  | completed c =>
    by_cases hc : c = 0
    · subst hc
      simp only [ne_eq, not_true_eq_false, if_false, reduceIte]
      cases env.listing.find? (fun f => endsWithStr f ".wav") <;> rfl
    · simp [hc]

theorem youtube_with_fst (gen : String → Except String (List String × String))
    (req : YouTubeRequest) (env : DownloaderEnv) :
    (youtube_to_tabs_with gen req env).1 =
      assembleWith gen (download_youtube_audio req.youtube_url env).1 := by
  unfold youtube_to_tabs_with assembleWith
  cases hd : (download_youtube_audio req.youtube_url env).1 with
  | error e => cases e <;> simp [hd, failEnvelope]
  | ok wav =>
    simp only [hd]
    cases hg : gen wav with
    | error e => simp [hg, failEnvelope]
    | ok pr => cases pr; simp [hg]

theorem youtube_with_snd (gen : String → Except String (List String × String))
    (req : YouTubeRequest) (env : DownloaderEnv) :
    (youtube_to_tabs_with gen req env).2 =
      (download_youtube_audio req.youtube_url env).2 := by
  unfold youtube_to_tabs_with
  cases hd : (download_youtube_audio req.youtube_url env).1 with
  | error e => cases e <;> simp [hd]
  | ok wav =>
    simp only [hd]
    cases hg : gen wav with
    | error e => simp [hg]
    | ok pr => cases pr; simp [hg]

theorem youtube_fst (req : YouTubeRequest) (env : DownloaderEnv) :
    (youtube_to_tabs req env).1 =
      assembleWith genOk (download_youtube_audio req.youtube_url env).1 :=
  youtube_with_fst genOk req env

theorem youtube_snd (req : YouTubeRequest) (env : DownloaderEnv) :
    (youtube_to_tabs req env).2 =
      (download_youtube_audio req.youtube_url env).2 :=
  youtube_with_snd genOk req env

theorem download_runtime_inv (url : String) (env : DownloaderEnv) (m : String)
    (hd : (download_youtube_audio url env).1 = .error (.runtimeError m)) :
    m = noWavMsg := by
  obtain ⟨s, t, r, l⟩ := env
  cases r with
  | timedOut => simp [download_youtube_audio] at hd
  | completed c =>
    by_cases hc : c = 0
    · subst hc
      simp only [download_youtube_audio, ne_eq, not_true_eq_false, reduceIte] at hd
      cases hf : List.find? (fun f => endsWithStr f ".wav") l with
      | some f => rw [hf] at hd; simp at hd
      | none => rw [hf] at hd; simp at hd; exact hd.symm
    · simp [download_youtube_audio, hc] at hd

/-- C1: every request to the handler yields a well-formed `TabResponse`
envelope — one of the four forms produced by the `except` arms
(timeout, non-zero exit, missing artifact via the generic arm) or the
success return; no other outcome (in particular no propagated
exception) is possible. -/
theorem c1_handler_always_envelope (req : YouTubeRequest) (env : DownloaderEnv) :
    (youtube_to_tabs req env).1 = failEnvelope timeoutMsg ∨
    (∃ c : Int, (youtube_to_tabs req env).1 =
      failEnvelope ("ERROR: yt-dlp failed (exit " ++ toString c ++ ").")) ∨
    (youtube_to_tabs req env).1 = failEnvelope ("ERROR: " ++ noWavMsg) ∨
    (youtube_to_tabs req env).1 = TabResponse.mk demoTab demoChords (some "OK") := by
  rw [youtube_fst]
  cases hd : (download_youtube_audio req.youtube_url env).1 with
  | error e =>
    cases e with
    | timeoutExpired => exact Or.inl rfl
    | calledProcessError c => exact Or.inr (Or.inl ⟨c, rfl⟩)
    | runtimeError m =>
      refine Or.inr (Or.inr (Or.inl ?_))
      rw [download_runtime_inv req.youtube_url env m hd]
      rfl
  | ok wav => exact Or.inr (Or.inr (Or.inr rfl))

/-- C2: on every failure path the envelope has empty `tab` and empty
`chords`; on the success path (the downloader returned a WAV path) the
envelope has non-empty `chords`, non-empty `tab`, and `message = "OK"`. -/
theorem c2_envelope_invariant (req : YouTubeRequest) (env : DownloaderEnv) :
    (∀ e : PyError, (download_youtube_audio req.youtube_url env).1 = .error e →
      (youtube_to_tabs req env).1.tab = "" ∧ (youtube_to_tabs req env).1.chords = []) ∧
    (∀ wav : String, (download_youtube_audio req.youtube_url env).1 = .ok wav →
      (youtube_to_tabs req env).1.chords ≠ [] ∧
      (youtube_to_tabs req env).1.tab ≠ "" ∧
      (youtube_to_tabs req env).1.message = some "OK") := by
  rw [youtube_fst]
  constructor
  · intro e he
    rw [he]
    cases e <;> simp [assembleWith, failEnvelope]
  · intro wav hw
    rw [hw]
    refine ⟨by simp [assembleWith, genOk, fake_generate_tabs, demoChords], ?_, rfl⟩
    show demoTab ≠ ""
    decide

/-- C2 witness: at a concrete successful environment the envelope has
non-empty chords and tab and the success message. -/
theorem c2_witness :
    (youtube_to_tabs reqDemo envOk).1.chords ≠ [] ∧
    (youtube_to_tabs reqDemo envOk).1.tab ≠ "" ∧
    (youtube_to_tabs reqDemo envOk).1.message = some "OK" :=
  (c2_envelope_invariant reqDemo envOk).2 (envOk.tmpDir ++ "/" ++ "audio.wav") rfl

/-- C3 counterexample: with `youtube_url = ""` the handler does NOT
return an InvalidInput-classified envelope and DOES invoke the
downloader — at a concrete environment whose yt-dlp run exits 1, the
downloader is invoked once and the envelope is the process-failure one,
refuting the claim that the Acquisition Executor is never invoked for
the empty URL. -/
theorem c3_counterexample :
    ((youtube_to_tabs (YouTubeRequest.mk "") envExit1).2).length = 1 ∧
    (youtube_to_tabs (YouTubeRequest.mk "") envExit1).1 =
      failEnvelope "ERROR: yt-dlp failed (exit 1)." :=
  ⟨rfl, rfl⟩

/-- C3 amended: the handler performs no URL validation at all; for the
empty URL (as for any URL) it invokes the downloader exactly once,
passing the empty string through as the final yt-dlp argument, and the
outcome is whatever envelope that run produces. -/
theorem c3_amended_no_validation (env : DownloaderEnv) :
    (youtube_to_tabs (YouTubeRequest.mk "") env).2 =
      [RunCall.mk (ytDlpCmd (env.srcDir ++ "/www.youtube.com_cookies.txt")
        (env.tmpDir ++ "/audio.%(ext)s") "") 30] := by
  rw [youtube_snd, download_calls]

/-- C4: `download_youtube_audio` performs exactly one downloader
invocation, with the fixed output template `<tmpDir>/audio.%(ext)s`
inside the fresh working directory and a time budget of 30 units
(within the 25–30 range); after a zero exit it returns the path, inside
the working directory, of the first listed file ending in `.wav`, and
errors with the fixed `RuntimeError` when no such file exists. -/
theorem c4_download_spec (url : String) (env : DownloaderEnv) :
    (download_youtube_audio url env).2 =
      [RunCall.mk (ytDlpCmd (env.srcDir ++ "/www.youtube.com_cookies.txt")
        (env.tmpDir ++ "/audio.%(ext)s") url) 30] ∧
    (∀ call ∈ (download_youtube_audio url env).2,
      25 ≤ call.timeoutSec ∧ call.timeoutSec ≤ 30) ∧
    (env.runResult = RunResult.completed 0 →
      (∀ fname, env.listing.find? (fun f => endsWithStr f ".wav") = some fname →
        (download_youtube_audio url env).1 = .ok (env.tmpDir ++ "/" ++ fname) ∧
        endsWithStr fname ".wav" = true) ∧
      (env.listing.find? (fun f => endsWithStr f ".wav") = none →
        (download_youtube_audio url env).1 = .error (.runtimeError noWavMsg))) := by
  refine ⟨download_calls url env, ?_, ?_⟩
  · intro call hc
    rw [download_calls] at hc
    simp only [List.mem_singleton] at hc
    subst hc
    exact ⟨by norm_num, by norm_num⟩
  · intro h0
    constructor
    · intro fname hf
      refine ⟨?_, by simpa using List.find?_some hf⟩
      unfold download_youtube_audio
      rw [h0]
      simp [hf]
    · intro hn
      unfold download_youtube_audio
      rw [h0]
      simp [hn]

/-- C4 witness: at a concrete environment (zero exit, listing
containing `audio.wav`) the function returns that file's path inside
the working directory. -/
theorem c4_witness :
    (download_youtube_audio "https://youtu.be/demo" envOk).1 =
      .ok (envOk.tmpDir ++ "/" ++ "audio.wav") ∧
    endsWithStr "audio.wav" ".wav" = true :=
  ((c4_download_spec "https://youtu.be/demo" envOk).2.2 rfl).1 "audio.wav" rfl

/-- C5: whenever the downloader run exceeds its time budget, the
envelope has empty chords and tab and a message containing the timeout
indicator `timeout`. -/
theorem c5_timeout_envelope (req : YouTubeRequest) (env : DownloaderEnv)
    (h : env.runResult = RunResult.timedOut) :
    (youtube_to_tabs req env).1.chords = [] ∧
    (youtube_to_tabs req env).1.tab = "" ∧
    ∃ m, (youtube_to_tabs req env).1.message = some m ∧ containsStr m "timeout" := by
  have hd : (download_youtube_audio req.youtube_url env).1 =
      .error .timeoutExpired := by
    unfold download_youtube_audio
    rw [h]
  rw [youtube_fst, hd]
  refine ⟨rfl, rfl, timeoutMsg, rfl, ?_⟩
  exact ⟨("ERROR: yt-dlp ").data, (" (>30s). Try a shorter video.").data, by decide⟩

/-- C5 witness: at a concrete timed-out environment the envelope is
empty and the message contains `timeout`. -/
theorem c5_witness :
    (youtube_to_tabs reqDemo envTimedOut).1.chords = [] ∧
    (youtube_to_tabs reqDemo envTimedOut).1.tab = "" ∧
    ∃ m, (youtube_to_tabs reqDemo envTimedOut).1.message = some m ∧
      containsStr m "timeout" :=
  c5_timeout_envelope reqDemo envTimedOut rfl

/-- C6: whenever the downloader process exits with a non-zero code `c`,
the envelope's message contains the decimal rendering of `c`. -/
theorem c6_exit_code_in_message (req : YouTubeRequest) (env : DownloaderEnv)
    (c : Int) (h : env.runResult = RunResult.completed c) (hc : c ≠ 0) :
    (youtube_to_tabs req env).1.tab = "" ∧
    (youtube_to_tabs req env).1.chords = [] ∧
    ∃ m, (youtube_to_tabs req env).1.message = some m ∧
      containsStr m (toString c) := by
  have hd : (download_youtube_audio req.youtube_url env).1 =
      .error (.calledProcessError c) := by
    unfold download_youtube_audio
    rw [h]
    simp [hc]
  rw [youtube_fst, hd]
  refine ⟨rfl, rfl, "ERROR: yt-dlp failed (exit " ++ toString c ++ ").", rfl, ?_⟩
  refine ⟨("ERROR: yt-dlp failed (exit ").data, (").").data, ?_⟩
  rw [data_append, data_append]

/-- C6 witness: at a concrete environment exiting with code 1 the
message contains `1`. -/
theorem c6_witness :
    (youtube_to_tabs reqDemo envExit1).1.tab = "" ∧
    (youtube_to_tabs reqDemo envExit1).1.chords = [] ∧
    ∃ m, (youtube_to_tabs reqDemo envExit1).1.message = some m ∧
      containsStr m (toString (1 : Int)) :=
  c6_exit_code_in_message reqDemo envExit1 1 rfl (by decide)

/-- C7: when the downloader exits 0 but no listed file carries the
`.wav` extension, the handler returns the missing-artifact failure
envelope (empty tab/chords, the fixed `RuntimeError` message) instead
of an unhandled fault. -/
theorem c7_artifact_missing (req : YouTubeRequest) (env : DownloaderEnv)
    (h0 : env.runResult = RunResult.completed 0)
    (hzero : ∀ f ∈ env.listing, endsWithStr f ".wav" = false) :
    (youtube_to_tabs req env).1 = failEnvelope ("ERROR: " ++ noWavMsg) := by
  have hn : env.listing.find? (fun f => endsWithStr f ".wav") = none := by
    rw [List.find?_eq_none]
    intro x hx
    simp [hzero x hx]
  have hd : (download_youtube_audio req.youtube_url env).1 =
      .error (.runtimeError noWavMsg) := by
    unfold download_youtube_audio
    rw [h0]
    simp [hn]
  rw [youtube_fst, hd]
  rfl

/-- C7 witness: at a concrete environment whose only produced file is
`audio.mp4`, the handler returns the missing-artifact envelope. -/
theorem c7_witness :
    (youtube_to_tabs reqDemo envNoWav).1 = failEnvelope ("ERROR: " ++ noWavMsg) :=
  c7_artifact_missing reqDemo envNoWav rfl (by decide)

/-- C8 counterexample: the timeout envelope's message is neither
prefixed by one of the literal stage tags `downloader` / `converter` /
`transcriber` nor does it contain the claimed detail `timed out` — it
is `ERROR: yt-dlp timeout (>30s). Try a shorter video.`. -/
theorem c8_counterexample :
    (youtube_to_tabs reqDemo envTimedOut).1 = failEnvelope timeoutMsg ∧
    specStageTagged timeoutMsg = false ∧
    containsB timeoutMsg "timed out" = false :=
  ⟨rfl, by decide, by decide⟩

/-- C8 amended: every classified error message starts with the stable
tag `ERROR` and contains a tag identifying the failing stage — `yt-dlp`
for downloader timeouts and process failures, `tab generator` for
transcription failures — followed by the kind-specific detail: the
exit code for process failures, and the indicator `timeout` (not
`timed out`) for timeouts. -/
theorem c8_amended_message_tags
    (gen : String → Except String (List String × String))
    (req : YouTubeRequest) (env : DownloaderEnv) :
    (env.runResult = RunResult.timedOut →
      ∃ m, (youtube_to_tabs_with gen req env).1.message = some m ∧
        startsWithP m "ERROR" ∧ containsStr m "yt-dlp" ∧ containsStr m "timeout") ∧
    (∀ c : Int, env.runResult = RunResult.completed c → c ≠ 0 →
      ∃ m, (youtube_to_tabs_with gen req env).1.message = some m ∧
        startsWithP m "ERROR" ∧ containsStr m "yt-dlp" ∧
        containsStr m (toString c)) ∧
    (∀ wav e, (download_youtube_audio req.youtube_url env).1 = .ok wav →
      gen wav = .error e →
      ∃ m, (youtube_to_tabs_with gen req env).1.message = some m ∧
        startsWithP m "ERROR" ∧ containsStr m "tab generator") := by
  refine ⟨?_, ?_, ?_⟩
  · intro h
    have hd : (download_youtube_audio req.youtube_url env).1 =
        .error .timeoutExpired := by
      unfold download_youtube_audio
      rw [h]
    rw [youtube_with_fst, hd]
    refine ⟨timeoutMsg, rfl, ?_, ?_, ?_⟩
    · exact ⟨(": yt-dlp timeout (>30s). Try a shorter video.").data, by decide⟩
    · exact ⟨("ERROR: ").data, (" timeout (>30s). Try a shorter video.").data, by decide⟩
    · exact ⟨("ERROR: yt-dlp ").data, (" (>30s). Try a shorter video.").data, by decide⟩
  · intro c h hc
    have hd : (download_youtube_audio req.youtube_url env).1 =
        .error (.calledProcessError c) := by
      unfold download_youtube_audio
      rw [h]
      simp [hc]
    rw [youtube_with_fst, hd]
    refine ⟨"ERROR: yt-dlp failed (exit " ++ toString c ++ ").", rfl, ?_, ?_, ?_⟩
    · refine ⟨(": yt-dlp failed (exit ").data ++ (toString c).data ++ (").").data, ?_⟩
      rw [data_append, data_append]
      have h5 : ("ERROR: yt-dlp failed (exit ").data =
          ("ERROR").data ++ (": yt-dlp failed (exit ").data := by decide
      rw [h5]
      simp [List.append_assoc]
    · refine ⟨("ERROR: ").data,
        (" failed (exit ").data ++ (toString c).data ++ (").").data, ?_⟩
      rw [data_append, data_append]
      have h5 : ("ERROR: yt-dlp failed (exit ").data =
          ("ERROR: ").data ++ ("yt-dlp").data ++ (" failed (exit ").data := by decide
      rw [h5]
      simp [List.append_assoc]
    · refine ⟨("ERROR: yt-dlp failed (exit ").data, (").").data, ?_⟩
      rw [data_append, data_append]
  · intro wav e hd hg
    rw [youtube_with_fst, hd]
    refine ⟨"ERROR (tab generator): " ++ e, by simp [assembleWith, hg, failEnvelope], ?_, ?_⟩
    · refine ⟨(" (tab generator): ").data ++ e.data, ?_⟩
      rw [data_append]
      have h5 : ("ERROR (tab generator): ").data =
          ("ERROR").data ++ (" (tab generator): ").data := by decide
      rw [h5]
      simp [List.append_assoc]
    · refine ⟨("ERROR (").data, ("): ").data ++ e.data, ?_⟩
      rw [data_append]
      have h5 : ("ERROR (tab generator): ").data =
          ("ERROR (").data ++ ("tab generator").data ++ ("): ").data := by decide
      rw [h5]
      simp [List.append_assoc]

/-- C8 amended witness: the timeout branch instantiated at a concrete
timed-out environment. -/
theorem c8_amended_witness :
    ∃ m, (youtube_to_tabs_with genOk reqDemo envTimedOut).1.message = some m ∧
      startsWithP m "ERROR" ∧ containsStr m "yt-dlp" ∧ containsStr m "timeout" :=
  (c8_amended_message_tags genOk reqDemo envTimedOut).1 rfl

/-- C9: the transcription stub is a constant function of its input, and
hence two requests with the same URL whose downloader runs agree
produce identical `tab` and `chords`. -/
theorem c9_deterministic :
    (∀ p q : String, fake_generate_tabs p = fake_generate_tabs q) ∧
    (∀ (req : YouTubeRequest) (env₁ env₂ : DownloaderEnv),
      (download_youtube_audio req.youtube_url env₁).1 =
        (download_youtube_audio req.youtube_url env₂).1 →
      (youtube_to_tabs req env₁).1.tab = (youtube_to_tabs req env₂).1.tab ∧
      (youtube_to_tabs req env₁).1.chords = (youtube_to_tabs req env₂).1.chords) := by
  refine ⟨fun p q => rfl, fun req env₁ env₂ h => ?_⟩
  rw [youtube_fst, youtube_fst, h]
  exact ⟨rfl, rfl⟩

/-- C9 witness: two different timed-out environments with agreeing
downloader outcomes give identical tab and chords. -/
theorem c9_witness :
    (youtube_to_tabs reqDemo envTimedOut).1.tab =
      (youtube_to_tabs reqDemo envTimedOutAlt).1.tab ∧
    (youtube_to_tabs reqDemo envTimedOut).1.chords =
      (youtube_to_tabs reqDemo envTimedOutAlt).1.chords :=
  c9_deterministic.2 reqDemo envTimedOut envTimedOutAlt rfl

/-- C10: the stub's exception embedding is always `.ok` (it cannot
raise), so the transcriber error branch is unreachable: whenever the
downloader returns normally the handler answers with the fixed success
envelope — message `OK`, chords `C G Am F`, the fixed 4-line tab. -/
theorem c10_success_path (req : YouTubeRequest) (env : DownloaderEnv)
    (wav : String)
    (h : (download_youtube_audio req.youtube_url env).1 = .ok wav) :
    (∀ p, genOk p = Except.ok (fake_generate_tabs p)) ∧
    (youtube_to_tabs req env).1 =
      TabResponse.mk demoTab ["C", "G", "Am", "F"] (some "OK") := by
  refine ⟨fun p => rfl, ?_⟩
  rw [youtube_fst, h]
  rfl

/-- C10 witness: at a concrete successful environment the handler
returns exactly the fixed success envelope. -/
theorem c10_witness :
    (youtube_to_tabs reqDemo envOk).1 =
      TabResponse.mk demoTab ["C", "G", "Am", "F"] (some "OK") :=
  (c10_success_path reqDemo envOk (envOk.tmpDir ++ "/" ++ "audio.wav") rfl).2

end ZoeTabs
